import Mathlib

/-!
Verification of the Smart-Price Pro V2.0 pricing engine and its
synchronization controller (source: src/index.tsx).

JavaScript number arithmetic is embedded as exact rational arithmetic (ℚ).
`Math.round` is embedded per its ECMAScript definition: the closest integer,
with half-way cases resolved toward positive infinity, i.e. ⌊x + 1/2⌋.
-/

namespace SmartPrice

/-- JS `Math.round`: nearest integer, ties toward +∞ (ECMAScript semantics). -/
def mathRound (v : ℚ) : ℤ := ⌊v + 1/2⌋

/-- Source: `const roundTo10 = (v) => Math.round(v / 10) * 10;` -/
def roundTo10 (v : ℚ) : ℚ := (mathRound (v / 10) : ℚ) * 10

/-- The input record of the pricing engine (src/index.tsx, `PricingInput`). -/
structure PricingInput where
  productName : String
  costPrice : ℚ
  mainGpRate : ℚ
  wholesaleMargin : ℚ
  consumerMargin : ℚ
deriving DecidableEq

/-- The derived record of the pricing engine (src/index.tsx, `PricingResult`). -/
structure PricingResult where
  mainSupplyNet : ℚ
  mainSupplyVatIncl : ℚ
  wholesalePrice : ℚ
  consumerPrice : ℚ
  directSupplyVatIncl : ℚ
  directSupplyNet : ℚ
  totalMargin : ℚ
deriving DecidableEq

/-- Source: `calculatePricing` (src/index.tsx lines 34–60), the forward chain. -/
def calculatePricing (input : PricingInput) : PricingResult :=
  let costPrice := input.costPrice
  let mainGpRate := input.mainGpRate
  let wholesaleMargin := input.wholesaleMargin
  let consumerMargin := input.consumerMargin
  let mainSupplyNet := roundTo10 (costPrice / (1 - mainGpRate / 100))
  let mainSupplyVatIncl := mainSupplyNet * 1.1
  let wholesalePrice := mainSupplyVatIncl / (1 - wholesaleMargin / 100)
  let consumerPrice := roundTo10 (wholesalePrice / (1 - consumerMargin / 100))
  let directSupplyNet := roundTo10 (wholesalePrice / 1.1)
  let directSupplyVatIncl := directSupplyNet * 1.1
  { mainSupplyNet := mainSupplyNet
    mainSupplyVatIncl := mainSupplyVatIncl
    wholesalePrice := wholesalePrice
    consumerPrice := consumerPrice
    directSupplyVatIncl := directSupplyVatIncl
    directSupplyNet := directSupplyNet
    totalMargin := consumerPrice - costPrice }

/-- The intermediate `mainSupplyNet` computed inside `calculateGpFromTarget`
(src/index.tsx lines 63–65). -/
def gpDerivedMainSupplyNet (target wm cm : ℚ) : ℚ :=
  target * (1 - cm / 100) * (1 - wm / 100) / 1.1

/-- Source: `calculateGpFromTarget` (src/index.tsx lines 62–67), the reverse
solve of the main GP rate from a target consumer price. -/
def calculateGpFromTarget (cost target wm cm : ℚ) : ℚ :=
  let wholesale := target * (1 - cm / 100)
  let mainSupplyVatIncl := wholesale * (1 - wm / 100)
  let mainSupplyNet := mainSupplyVatIncl / 1.1
  if mainSupplyNet > 0 then (1 - cost / mainSupplyNet) * 100 else 0

/-- Accumulate the value of a list of decimal digit characters; any
non-digit character makes the whole conversion fail (JS `NaN`). -/
def decDigitsAux (acc : ℕ) : List Char → Option ℕ
  | [] => some acc
  | c :: cs => if c.isDigit then decDigitsAux (acc * 10 + (c.toNat - 48)) cs else none

/-- Value of a non-empty all-digit character list, `none` otherwise. -/
def decDigits : List Char → Option ℕ
  | [] => none
  | c :: cs => decDigitsAux 0 (c :: cs)

/-- Models the JS conversion `Number(s)` on the strings the controller's
fields produce: the empty string converts to `0`, an optional leading minus
sign followed by decimal digits converts to the signed integer value, and
anything else is `NaN`, represented as `none`. -/
def jsNumber (s : String) : Option ℚ :=
  match s.data with
  | [] => some 0
  | c :: cs =>
    if c = '-' then (decDigits cs).map (fun n => -(n : ℚ))
    else (decDigits (c :: cs)).map (fun n => (n : ℚ))

/-- Models JS `Number.prototype.toString` for the values the controller writes
back into the target field; the controller only ever writes `consumerPrice`,
which is an integral multiple of 10, so only the integral case matters. -/
def jsNumToString (q : ℚ) : String :=
  if q.den = 1 then toString q.num else toString q.num ++ "/" ++ toString q.den

/-- Models `newGp.toFixed(2)` followed by `parseFloat` (src/index.tsx line
104): round to 2 decimal places, half-way cases toward the larger value
(ECMAScript `toFixed` semantics). -/
def roundTo2Dec (q : ℚ) : ℚ := (mathRound (q * 100) : ℚ) / 100

/-- The synchronization controller's state (src/index.tsx lines 71–81):
the current `input`, the raw target-field text `targetPrice`, the last
computed `result` (`none` before the first render effect), and the
`isReverseSync` ref that records whether the last edit came from the
target field (`true`) or from an input field (`false`). -/
structure AppState where
  input : PricingInput
  targetPrice : String
  result : Option PricingResult
  isReverseSync : Bool

/-- Source: `refresh` (src/index.tsx lines 83–87): recompute the result from
the current input; when the last edit came from the input side
(`isReverseSync = false`), also write the computed consumer price back into
the target field. -/
def refresh (s : AppState) : AppState :=
  let res := calculatePricing s.input
  { s with
    result := some res
    targetPrice := if s.isReverseSync then s.targetPrice else jsNumToString res.consumerPrice }

/-- Source: `onTargetChange` (src/index.tsx lines 97–105), including the
`useEffect` recompute that React runs after the input is replaced: the typed
text is always stored; if it does not parse to a strictly positive number
(`!num || num <= 0`) nothing else happens; otherwise the reverse-solved GP
rate, rounded to 2 decimals, replaces `mainGpRate` and the result is
recomputed with `isReverseSync` set. -/
def onTargetChange (s : AppState) (val : String) : AppState :=
  let s1 := { s with targetPrice := val }
  match jsNumber val with
  | none => s1
  | some num =>
    if num ≤ 0 then s1
    else
      let newGp := calculateGpFromTarget s.input.costPrice num
        s.input.wholesaleMargin s.input.consumerMargin
      refresh { s1 with
        isReverseSync := true
        input := { s1.input with mainGpRate := roundTo2Dec newGp } }

/-- Claim C1: for the input (costPrice 50000, mainGpRate 35.0, wholesaleMargin
15, consumerMargin 20), `calculatePricing` returns mainSupplyNet = 76920,
mainSupplyVatIncl = 84612.0, wholesalePrice = 84612/0.85, and
consumerPrice = 124430. -/
theorem calculatePricing_concrete_scenario :
    (calculatePricing ⟨"", 50000, 35, 15, 20⟩).mainSupplyNet = 76920 ∧
    (calculatePricing ⟨"", 50000, 35, 15, 20⟩).mainSupplyVatIncl = 84612 ∧
    (calculatePricing ⟨"", 50000, 35, 15, 20⟩).wholesalePrice = 84612 / (85 / 100) ∧
    (calculatePricing ⟨"", 50000, 35, 15, 20⟩).consumerPrice = 124430 := by
  refine ⟨?_, ?_, ?_, ?_⟩ <;> norm_num [calculatePricing, roundTo10, mathRound]

/-- Claim C2, counterexample: the claim asserts round-half-away-from-zero
semantics, in particular roundTo10 (-15) = -20; the code's `Math.round`
resolves halves toward +∞, so roundTo10 (-15) = -10 ≠ -20. -/
theorem roundTo10_neg15_ne_neg20 :
    roundTo10 (-15) = -10 ∧ ¬ roundTo10 (-15) = -20 := by
  norm_num [roundTo10, mathRound]

/-- Claim C2, amended: for every rational x, `roundTo10 x` is the multiple of
10 nearest to x, resolving exact half-way cases toward positive infinity
(never downward), per JS `Math.round` semantics. -/
theorem roundTo10_nearest_mult_ten_ties_up (x : ℚ) :
    (∃ k : ℤ, roundTo10 x = 10 * k) ∧
    |roundTo10 x - x| ≤ 5 ∧ roundTo10 x - x ≠ -5 := by
  unfold roundTo10 mathRound
  have h1 : ((⌊x / 10 + 1/2⌋ : ℤ) : ℚ) ≤ x / 10 + 1/2 := Int.floor_le _
  have h2 : x / 10 + 1/2 < (⌊x / 10 + 1/2⌋ : ℤ) + 1 := Int.lt_floor_add_one _
  refine ⟨⟨⌊x / 10 + 1/2⌋, by ring⟩, ?_, ?_⟩
  · rw [abs_le]; constructor <;> linarith
  · intro h; linarith [h]

/-- Claim C3, counterexample: the claim asserts
`calculateGpFromTarget 100000 1 15 20 = 0`; the code returns a (large)
negative number there, because the derived mainSupplyNet is positive and the
zero-guard does not fire. -/
theorem calculateGpFromTarget_low_target_neg :
    calculateGpFromTarget 100000 1 15 20 < 0 := by
  norm_num [calculateGpFromTarget]

/-- Claim C3, amended: `calculateGpFromTarget 100000 1 15 20` returns the
negative rate -274998300/17 (≈ -16176370.6), not 0, since the derived
mainSupplyNet = 34/55 is strictly positive so the ≤ 0 guard does not apply. -/
theorem calculateGpFromTarget_low_target_value :
    calculateGpFromTarget 100000 1 15 20 = -274998300 / 17 ∧
    gpDerivedMainSupplyNet 1 15 20 = 34 / 55 := by
  constructor <;> norm_num [calculateGpFromTarget, gpDerivedMainSupplyNet]

/-- Claim C4: for every cost, target, wholesale margin and consumer margin,
whenever the intermediate mainSupplyNet derived inside
`calculateGpFromTarget` is ≤ 0, the function returns 0. -/
theorem calculateGpFromTarget_nonpos_net_eq_zero
    (cost target wm cm : ℚ) (h : gpDerivedMainSupplyNet target wm cm ≤ 0) :
    calculateGpFromTarget cost target wm cm = 0 := by
  unfold gpDerivedMainSupplyNet at h
  simp only [calculateGpFromTarget]
  split
  · rename_i hpos; exact absurd hpos (not_lt.mpr h)
  · rfl

/-- Witness for claim C4 at cost 100, target -1, margins 0 and 0. -/
theorem calculateGpFromTarget_nonpos_net_eq_zero_witness :
    gpDerivedMainSupplyNet (-1) 0 0 ≤ 0 ∧ calculateGpFromTarget 100 (-1) 0 0 = 0 :=
  ⟨by norm_num [gpDerivedMainSupplyNet],
   calculateGpFromTarget_nonpos_net_eq_zero 100 (-1) 0 0
     (by norm_num [gpDerivedMainSupplyNet])⟩

/-- Claim C5: from every prior controller state, an `onTargetChange` whose
text does not parse to a number or parses to a value ≤ 0 leaves
`input.mainGpRate` and the computed result unchanged, while the target field
text becomes the literal typed string. -/
theorem onTargetChange_invalid_noop (s : AppState) (val : String)
    (h : jsNumber val = none ∨ ∃ n, jsNumber val = some n ∧ n ≤ 0) :
    (onTargetChange s val).input.mainGpRate = s.input.mainGpRate ∧
    (onTargetChange s val).result = s.result ∧
    (onTargetChange s val).targetPrice = val := by
  rcases h with h | ⟨n, h, hn⟩
  · simp [onTargetChange, h]
  · simp [onTargetChange, h, hn]

/-- Witness for claim C5: typing "-5" into the target field of a concrete
state is a no-op apart from the stored text. -/
theorem onTargetChange_invalid_noop_witness :
    (jsNumber "-5" = none ∨ ∃ n, jsNumber "-5" = some n ∧ n ≤ 0) ∧
    ((onTargetChange ⟨⟨"p", 55000, 35, 15, 20⟩, "136890", none, false⟩ "-5").input.mainGpRate
        = (⟨⟨"p", 55000, 35, 15, 20⟩, "136890", none, false⟩ : AppState).input.mainGpRate ∧
      (onTargetChange ⟨⟨"p", 55000, 35, 15, 20⟩, "136890", none, false⟩ "-5").result
        = (⟨⟨"p", 55000, 35, 15, 20⟩, "136890", none, false⟩ : AppState).result ∧
      (onTargetChange ⟨⟨"p", 55000, 35, 15, 20⟩, "136890", none, false⟩ "-5").targetPrice
        = "-5") := by
  have h : jsNumber "-5" = none ∨ ∃ n, jsNumber "-5" = some n ∧ n ≤ 0 :=
    Or.inr ⟨-5, by decide, by norm_num⟩
  exact ⟨h, onTargetChange_invalid_noop ⟨⟨"p", 55000, 35, 15, 20⟩, "136890", none, false⟩ "-5" h⟩

/-- Claim C6: for every controller state, `refresh` recomputes the result
with `calculatePricing` on the current input; when the last edit came from an
input field (isReverseSync = false) it overwrites the target text with the
newly computed consumer price, and when the last edit came from the target
field (isReverseSync = true) it leaves the target text exactly as typed. -/
theorem refresh_spec (s : AppState) :
    (refresh s).result = some (calculatePricing s.input) ∧
    (refresh s).targetPrice =
      (if s.isReverseSync then s.targetPrice
       else jsNumToString (calculatePricing s.input).consumerPrice) := by
  exact ⟨rfl, rfl⟩

/-- Claim C7: with costPrice 55000, mainGpRate 35.0, wholesaleMargin 15 and
consumerMargin 20, the forward chain yields mainSupplyNet = 84620, and
feeding its consumerPrice back into `calculateGpFromTarget` with the same
cost and margins returns a rate within 0.5 percentage points of 35.0. -/
theorem roundtrip_approx_55000 :
    (calculatePricing ⟨"", 55000, 35, 15, 20⟩).mainSupplyNet = 84620 ∧
    |calculateGpFromTarget 55000
        (calculatePricing ⟨"", 55000, 35, 15, 20⟩).consumerPrice 15 20 - 35| ≤ 1/2 := by
  constructor <;>
    norm_num [calculatePricing, calculateGpFromTarget, roundTo10, mathRound, abs_le]

/-- Claim C8: for every input, the result of `calculatePricing` satisfies
mainSupplyVatIncl = mainSupplyNet * 1.1 and
directSupplyVatIncl = directSupplyNet * 1.1 exactly (the VAT multiplication
is applied to the already-rounded net figures). -/
theorem vatIncl_eq_net_mul (input : PricingInput) :
    (calculatePricing input).mainSupplyVatIncl
      = (calculatePricing input).mainSupplyNet * 1.1 ∧
    (calculatePricing input).directSupplyVatIncl
      = (calculatePricing input).directSupplyNet * 1.1 :=
  ⟨rfl, rfl⟩

/-- Claim C9: for every prior state and every target edit parsing to a
strictly positive number, `onTargetChange` touches only `mainGpRate` inside
the input record: productName, costPrice, wholesaleMargin and consumerMargin
keep their prior values. -/
theorem onTargetChange_frame (s : AppState) (val : String) (n : ℚ)
    (h1 : jsNumber val = some n) (h2 : 0 < n) :
    (onTargetChange s val).input.productName = s.input.productName ∧
    (onTargetChange s val).input.costPrice = s.input.costPrice ∧
    (onTargetChange s val).input.wholesaleMargin = s.input.wholesaleMargin ∧
    (onTargetChange s val).input.consumerMargin = s.input.consumerMargin := by
  simp [onTargetChange, refresh, h1, not_le.mpr h2]

/-- Witness for claim C9: typing "120" into the target field of a concrete
state leaves all input fields but mainGpRate unchanged. -/
theorem onTargetChange_frame_witness :
    jsNumber "120" = some 120 ∧ (0 : ℚ) < 120 ∧
    ((onTargetChange ⟨⟨"p", 55000, 35, 15, 20⟩, "136890", none, false⟩ "120").input.productName
        = "p" ∧
      (onTargetChange ⟨⟨"p", 55000, 35, 15, 20⟩, "136890", none, false⟩ "120").input.costPrice
        = 55000 ∧
      (onTargetChange ⟨⟨"p", 55000, 35, 15, 20⟩, "136890", none, false⟩
          "120").input.wholesaleMargin = 15 ∧
      (onTargetChange ⟨⟨"p", 55000, 35, 15, 20⟩, "136890", none, false⟩
          "120").input.consumerMargin = 20) :=
  ⟨by decide, by norm_num,
   onTargetChange_frame ⟨⟨"p", 55000, 35, 15, 20⟩, "136890", none, false⟩ "120" 120
     (by decide) (by norm_num)⟩

/-- Claim C10: for every cost > 0 and all target and margin values,
`calculateGpFromTarget` returns a value strictly below 100, so the raw
reverse-solved rate never reaches the region where the forward denominator
(1 - rate/100) is zero or negative. -/
theorem calculateGpFromTarget_lt_100 (cost target wm cm : ℚ) (h : 0 < cost) :
    calculateGpFromTarget cost target wm cm < 100 := by
  simp only [calculateGpFromTarget]
  split
  · rename_i hpos
    have hd : 0 < cost / (target * (1 - cm / 100) * (1 - wm / 100) / 1.1) :=
      div_pos h hpos
    linarith
  · norm_num

/-- Witness for claim C10 at cost 100, target 1, margins 0 and 0. -/
theorem calculateGpFromTarget_lt_100_witness :
    (0 : ℚ) < 100 ∧ calculateGpFromTarget 100 1 0 0 < 100 :=
  ⟨by norm_num, calculateGpFromTarget_lt_100 100 1 0 0 (by norm_num)⟩

end SmartPrice
